import Mathlib

/-!
# Verification of the IAJ Management Hub monitoring pipeline

Shallow embedding of `src/main.py` (probe executor, result cache, retention
manager, stats aggregator, fan-out runner) together with proofs settling the
frozen claims about the natural-language specification.

Modelling conventions:
* Python floats (wall-clock times, latencies in milliseconds) are modelled as
  exact rationals `ℚ`; the display rounding `round(x, 2)` applied by the source
  when it formats latencies is omitted (no claim concerns rounding).
* Network behaviour is a function from the attempt index to the outcome of that
  attempt (`AttemptOutcome`), so one probe run against a fixed transport trace
  is deterministic.
* Database tables are lists of records in insertion order; the store assigns
  strictly increasing integer identities.
-/

namespace IAJHub

/-! ## Probe executor (`retry_with_backoff`, `check_system_health`) -/

/-- Status values written by `check_system_health` (`src/main.py:269-307`). -/
inductive ProbeStatus
  | healthy
  | unhealthy
  | timeout
  | error
deriving DecidableEq, Repr

/-- Outcome of one transport attempt (`await client.get(url)` in
`attempt_check`, `src/main.py:256-263`): an HTTP response with a status code,
an `httpx.TimeoutException`, or some other transport exception with message. -/
inductive AttemptOutcome
  | ok (code : Nat)
  | timeout
  | err (msg : String)
deriving DecidableEq, Repr

/-- The exception that `retry_with_backoff` re-raises once retries are
exhausted: either the timeout exception or another transport exception. -/
inductive RetryError
  | timeout
  | err (msg : String)
deriving DecidableEq, Repr

/-- Result of one `retry_with_backoff` run: either the value returned by a
successful call (here: the HTTP response status code) or the exception the
last attempt raised. -/
inductive RetryOutcome
  | returned (code : Nat)
  | raised (e : RetryError)
deriving DecidableEq, Repr

/-- Observable trace of one `retry_with_backoff` run: the returned response
code or the raised exception, the backoff delays slept (in seconds), and the
number of attempts actually performed. -/
structure RetryTrace where
  outcome : RetryOutcome
  delays : List Nat
  attempts : Nat
deriving DecidableEq, Repr

/-- The loop body of `retry_with_backoff` (`src/main.py:143-153`):
`for attempt in range(max_retries)` — try the call; on the last attempt
re-raise the exception, otherwise sleep `base_delay * 2 ** attempt` and
continue.  `fuel` is the number of remaining loop iterations (initially
`max_retries`), `attempt` the current index.  The `except Exception` clause of
the source catches every failure, timeouts included. -/
def retryLoop (f : Nat → AttemptOutcome) (maxRetries baseDelay : Nat) :
    (fuel attempt : Nat) → RetryTrace
  | 0, attempt => ⟨.raised (.err "loop exhausted"), [], attempt⟩
  | fuel + 1, attempt =>
    match f attempt with
    | .ok code => ⟨.returned code, [], attempt + 1⟩
    | .timeout =>
      if attempt = maxRetries - 1 then ⟨.raised .timeout, [], attempt + 1⟩
      else
        let rest := retryLoop f maxRetries baseDelay fuel (attempt + 1)
        ⟨rest.outcome, baseDelay * 2 ^ attempt :: rest.delays, rest.attempts⟩
    | .err m =>
      if attempt = maxRetries - 1 then ⟨.raised (.err m), [], attempt + 1⟩
      else
        let rest := retryLoop f maxRetries baseDelay fuel (attempt + 1)
        ⟨rest.outcome, baseDelay * 2 ^ attempt :: rest.delays, rest.attempts⟩

/-- `retry_with_backoff(func, max_retries, base_delay)` (`src/main.py:143`). -/
def retry_with_backoff (f : Nat → AttemptOutcome) (maxRetries baseDelay : Nat) :
    RetryTrace :=
  retryLoop f maxRetries baseDelay maxRetries 0

/-- One stored health-check outcome, mirroring the dict built by
`check_system_health` (`src/main.py:269-307`).  `last_check` and the opaque
`metadata` payload are not modelled (no claim concerns them). -/
structure ProbeResult where
  system_name : String
  status : ProbeStatus
  response_time_ms : Option ℚ
  error_message : Option String
deriving DecidableEq, Repr

/-- `check_system_health` (`src/main.py:252-307`): run
`retry_with_backoff(attempt_check, max_retries=2, base_delay=1)`; a returned
response with code 200 is `healthy`, another code is `unhealthy` with
`error_message = "HTTP <code>"`; a raised `httpx.TimeoutException` is `timeout`
and any other raised exception is `error`, both with no latency.  `elapsed` is
the wall-clock measurement `(now - start_time) * 1000` the source records as
`response_time_ms` for completed exchanges. -/
def check_system_health (key : String) (f : Nat → AttemptOutcome) (elapsed : ℚ) :
    ProbeResult :=
  match (retry_with_backoff f 2 1).outcome with
  | .returned code =>
    if code = 200 then ⟨key, .healthy, some elapsed, none⟩
    else ⟨key, .unhealthy, some elapsed, some ("HTTP " ++ toString code)⟩
  | .raised .timeout => ⟨key, .timeout, none, some "Request timeout after retries"⟩
  | .raised (.err m) => ⟨key, .error, none, some m⟩

/-- The retry trace of one probe as `check_system_health` runs it
(`max_retries=2, base_delay=1`, `src/main.py:266`). -/
def probeTrace (f : Nat → AttemptOutcome) : RetryTrace :=
  retry_with_backoff f 2 1

/-- A transport that refuses the connection on the first two attempts and
would answer HTTP 200 from the third attempt on. -/
def failTwiceTransport : Nat → AttemptOutcome := fun i =>
  if i < 2 then .err "connection refused" else .ok 200

/-- A transport that refuses the connection on the first attempt and answers
HTTP 200 from the second attempt on. -/
def failOnceTransport : Nat → AttemptOutcome := fun i =>
  if i = 0 then .err "connection refused" else .ok 200

/-- A transport that times out on the first attempt and answers HTTP 200 from
the second attempt on. -/
def timeoutThenOkTransport : Nat → AttemptOutcome := fun i =>
  if i = 0 then .timeout else .ok 200

/-- A transport that always answers HTTP 200. -/
def alwaysOkTransport : Nat → AttemptOutcome := fun _ => .ok 200

/-- A transport that always answers HTTP 503. -/
def always503Transport : Nat → AttemptOutcome := fun _ => .ok 503

/-- A transport that always times out. -/
def alwaysTimeoutTransport : Nat → AttemptOutcome := fun _ => .timeout

/-- A transport that always refuses the connection. -/
def alwaysRefusedTransport : Nat → AttemptOutcome := fun _ => .err "connection refused"

/-- C1, counterexample.  The claim predicts that a target failing transport on
the first two attempts and succeeding on the third gets three attempts with
delays 1s then 2s and a `healthy` result.  The source calls
`retry_with_backoff(attempt_check, max_retries=2, base_delay=1)`
(`src/main.py:266`), so on that very transport only two attempts are made with
a single 1s delay, and the probe reports `error`. -/
theorem probe_three_attempts_cex :
    (probeTrace failTwiceTransport).attempts = 2 ∧
    (probeTrace failTwiceTransport).delays = [1] ∧
    (check_system_health "s" failTwiceTransport 5).status = .error := by
  decide

/-- C1 (amended): the Probe Executor performs at most two attempts
(`max_retries=2`); a target whose transport fails on the first attempt and
succeeds with HTTP 200 on the second incurs exactly one backoff delay of 1s
(`base_delay * 2^attempt` at attempt 0) and returns a `healthy` result. -/
theorem probe_retry_timing :
    (∀ (key : String) (f : Nat → AttemptOutcome) (m : String) (e : ℚ),
        f 0 = .err m → f 1 = .ok 200 →
        probeTrace f = ⟨.returned 200, [1], 2⟩ ∧
        (check_system_health key f e).status = .healthy) ∧
    (∀ f : Nat → AttemptOutcome, (probeTrace f).attempts ≤ 2) := by
  constructor
  · intro key f m e h0 h1
    constructor
    · simp [probeTrace, retry_with_backoff, retryLoop, h0, h1]
    · simp [check_system_health, retry_with_backoff, retryLoop, h0, h1]
  · intro f
    rcases h0 : f 0 with c | _ | m <;>
      rcases h1 : f 1 with c' | _ | m' <;>
        simp [probeTrace, retry_with_backoff, retryLoop, h0, h1]

/-- Witness for `probe_retry_timing` at a concrete transport. -/
theorem probe_retry_timing_witness :
    probeTrace failOnceTransport = ⟨.returned 200, [1], 2⟩ ∧
    (check_system_health "story_grid_pro" failOnceTransport 1234).status = .healthy ∧
    (probeTrace failOnceTransport).attempts ≤ 2 := by
  obtain ⟨h, hb⟩ := probe_retry_timing
  obtain ⟨h1, h2⟩ :=
    h "story_grid_pro" failOnceTransport "connection refused" 1234 rfl rfl
  exact ⟨h1, h2, hb failOnceTransport⟩

/-- C2: for every transport behaviour the Probe Executor returns exactly one
`ProbeResult` — it is a total function into `ProbeResult`, so no error
propagates — and each network condition is captured as a status value:
HTTP 200 yields `healthy`, a non-200 response yields `unhealthy` with
`error_message = "HTTP <code>"`, persistent timeout yields `timeout`, and a
persistent non-timeout transport failure yields `error`. -/
theorem probe_never_fails (key : String) (f : Nat → AttemptOutcome) (e : ℚ) :
    ((check_system_health key f e).status = .healthy ∨
      (check_system_health key f e).status = .unhealthy ∨
      (check_system_health key f e).status = .timeout ∨
      (check_system_health key f e).status = .error) ∧
    (f 0 = .ok 200 → check_system_health key f e = ⟨key, .healthy, some e, none⟩) ∧
    (∀ c, f 0 = .ok c → c ≠ 200 →
      check_system_health key f e =
        ⟨key, .unhealthy, some e, some ("HTTP " ++ toString c)⟩) ∧
    (f 0 = .timeout → f 1 = .timeout →
      check_system_health key f e =
        ⟨key, .timeout, none, some "Request timeout after retries"⟩) ∧
    (∀ m m', f 0 = .err m → f 1 = .err m' →
      check_system_health key f e = ⟨key, .error, none, some m'⟩) := by
  refine ⟨?_, ?_, ?_, ?_, ?_⟩
  · cases h : (check_system_health key f e).status <;> simp
  · intro h0
    simp [check_system_health, retry_with_backoff, retryLoop, h0]
  · intro c h0 hc
    simp [check_system_health, retry_with_backoff, retryLoop, h0, hc]
  · intro h0 h1
    simp [check_system_health, retry_with_backoff, retryLoop, h0, h1]
  · intro m m' h0 h1
    simp [check_system_health, retry_with_backoff, retryLoop, h0, h1]

/-- Witness for `probe_never_fails` at the four network conditions. -/
theorem probe_never_fails_witness :
    check_system_health "a" alwaysOkTransport 7 = ⟨"a", .healthy, some 7, none⟩ ∧
    check_system_health "a" always503Transport 7 =
      ⟨"a", .unhealthy, some 7, some ("HTTP " ++ toString 503)⟩ ∧
    check_system_health "a" alwaysTimeoutTransport 7 =
      ⟨"a", .timeout, none, some "Request timeout after retries"⟩ ∧
    check_system_health "a" alwaysRefusedTransport 7 =
      ⟨"a", .error, none, some "connection refused"⟩ := by
  refine ⟨?_, ?_, ?_, ?_⟩
  · exact (probe_never_fails "a" alwaysOkTransport 7).2.1 rfl
  · exact (probe_never_fails "a" always503Transport 7).2.2.1 503 rfl (by decide)
  · exact (probe_never_fails "a" alwaysTimeoutTransport 7).2.2.2.1 rfl rfl
  · exact (probe_never_fails "a" alwaysRefusedTransport 7).2.2.2.2
      "connection refused" "connection refused" rfl rfl

/-- C3, counterexample.  The claim predicts that once a probe attempt times
out no further attempt is made.  The `except Exception` clause of
`retry_with_backoff` (`src/main.py:148`) catches `httpx.TimeoutException` like
any other failure, so a transport that times out on the first attempt and
answers HTTP 200 on the second gets a second attempt and reports `healthy`. -/
theorem probe_timeout_no_retry_cex :
    ¬ (probeTrace timeoutThenOkTransport).attempts ≤ 1 ∧
    (check_system_health "s" timeoutThenOkTransport 3).status = .healthy := by
  decide

/-- C3 (amended): the Probe Executor retries every transport-level failure,
timeouts included, up to the same retry limit; a timeout on the final attempt
yields a `ProbeResult` with `status = timeout` and no `latency_ms`. -/
theorem probe_timeout_retried (key : String) (f : Nat → AttemptOutcome) (e : ℚ) :
    (f 0 = .timeout → f 1 = .ok 200 →
      probeTrace f = ⟨.returned 200, [1], 2⟩ ∧
      (check_system_health key f e).status = .healthy) ∧
    (f 0 = .timeout → f 1 = .timeout →
      (probeTrace f).attempts = 2 ∧
      (check_system_health key f e).status = .timeout ∧
      (check_system_health key f e).response_time_ms = none) := by
  constructor
  · intro h0 h1
    constructor
    · simp [probeTrace, retry_with_backoff, retryLoop, h0, h1]
    · simp [check_system_health, retry_with_backoff, retryLoop, h0, h1]
  · intro h0 h1
    refine ⟨?_, ?_, ?_⟩
    · simp [probeTrace, retry_with_backoff, retryLoop, h0, h1]
    · simp [check_system_health, retry_with_backoff, retryLoop, h0, h1]
    · simp [check_system_health, retry_with_backoff, retryLoop, h0, h1]

/-- Witness for `probe_timeout_retried` at concrete transports. -/
theorem probe_timeout_retried_witness :
    probeTrace timeoutThenOkTransport = ⟨.returned 200, [1], 2⟩ ∧
    (check_system_health "a" alwaysTimeoutTransport 9).status = .timeout ∧
    (check_system_health "a" alwaysTimeoutTransport 9).response_time_ms = none := by
  obtain ⟨h1, -⟩ := (probe_timeout_retried "a" timeoutThenOkTransport 9).1 rfl rfl
  obtain ⟨-, h2, h3⟩ := (probe_timeout_retried "a" alwaysTimeoutTransport 9).2 rfl rfl
  exact ⟨h1, h2, h3⟩

/-! ## Result cache (`CACHE`, the `cached` decorator, cache invalidation) -/

/-- One entry of the module-level `CACHE` dict (`src/main.py:115-118`):
`{"data": ..., "timestamp": ..., "ttl": ...}`.  `data` is the cached payload
(`None` when absent or invalidated), `timestamp` the `time.time()` value
recorded when the payload was stored (`None` initially). -/
structure CacheEntry (V : Type) where
  data : Option V
  timestamp : Option ℚ
  ttl : Nat
deriving DecidableEq, Repr

/-- The observable outcome of one pass through the `cached` wrapper: the value
returned to the caller, the state of the cache entry afterwards, and whether
the wrapped computation was invoked. -/
structure CacheGetResult (V : Type) where
  value : V
  entry : CacheEntry V
  computed : Bool
deriving DecidableEq, Repr

/-- The body of the `cached(cache_key, ttl)` wrapper (`src/main.py:124-140`):
a hit requires the entry to exist, its `data` to be non-`None`, its
`timestamp` to be truthy (in Python `0.0` is falsy) and `now - timestamp < ttl`;
any other case recomputes and stores
`{"data": result, "timestamp": now, "ttl": ttl}`. -/
def getOrCompute {V : Type} (entry? : Option (CacheEntry V)) (now : ℚ)
    (ttl : Nat) (compute : V) : CacheGetResult V :=
  match entry? with
  | some entry =>
    match entry.data with
    | some d =>
      match entry.timestamp with
      | some ts =>
        if ts ≠ 0 ∧ now - ts < (ttl : ℚ) then ⟨d, entry, false⟩
        else ⟨compute, ⟨some compute, some now, ttl⟩, true⟩
      | none => ⟨compute, ⟨some compute, some now, ttl⟩, true⟩
    | none => ⟨compute, ⟨some compute, some now, ttl⟩, true⟩
  | none => ⟨compute, ⟨some compute, some now, ttl⟩, true⟩

/-- Cache invalidation as the source performs it
(`CACHE[key]["data"] = None`, `src/main.py:352` and `src/main.py:548`):
only the `data` field is cleared, the timestamp is left in place. -/
def invalidate {V : Type} (entry : CacheEntry V) : CacheEntry V :=
  { entry with data := none }

/-- C4: starting from an empty cache entry, a first `get_or_compute` at time
`t₁ > 0` invokes the computation and stores its result; a second call within
the TTL returns the stored value without computing; a call at or after
`t₁ + ttl` recomputes and stores the fresh value with the current timestamp;
and a call after an intervening `invalidate` recomputes regardless of elapsed
time.  (The hypothesis `0 < t₁` reflects that `time.time()` is a positive
epoch timestamp; the decorator tests the stored timestamp for truthiness, so
a stored timestamp of exactly `0.0` would be treated as absent.) -/
theorem cache_get_or_compute (V : Type) (v₁ v₂ : V) (ttl : Nat) (t₁ t₂ : ℚ)
    (ht₁ : 0 < t₁) :
    (getOrCompute (none : Option (CacheEntry V)) t₁ ttl v₁ =
      ⟨v₁, ⟨some v₁, some t₁, ttl⟩, true⟩) ∧
    (t₂ - t₁ < (ttl : ℚ) →
      getOrCompute (some ⟨some v₁, some t₁, ttl⟩) t₂ ttl v₂ =
        ⟨v₁, ⟨some v₁, some t₁, ttl⟩, false⟩) ∧
    ((ttl : ℚ) ≤ t₂ - t₁ →
      getOrCompute (some ⟨some v₁, some t₁, ttl⟩) t₂ ttl v₂ =
        ⟨v₂, ⟨some v₂, some t₂, ttl⟩, true⟩) ∧
    (getOrCompute (some (invalidate ⟨some v₁, some t₁, ttl⟩)) t₂ ttl v₂ =
      ⟨v₂, ⟨some v₂, some t₂, ttl⟩, true⟩) := by
  refine ⟨rfl, ?_, ?_, rfl⟩
  · intro hlt
    have hne : t₁ ≠ 0 := ne_of_gt ht₁
    simp [getOrCompute, hne, hlt]
  · intro hge
    have : ¬ (t₂ - t₁ < (ttl : ℚ)) := not_lt.mpr hge
    simp [getOrCompute, this]

/-- Witness for `cache_get_or_compute`: key `"k"`, `ttl = 60`, first call at
`t = 100`, hit at `t = 130`, recomputation at `t = 161`, and recomputation
after `invalidate`. -/
theorem cache_get_or_compute_witness :
    (getOrCompute (none : Option (CacheEntry Nat)) 100 60 7 =
      ⟨7, ⟨some 7, some 100, 60⟩, true⟩) ∧
    (getOrCompute (some ⟨some 7, some 100, 60⟩) 130 60 8 =
      ⟨7, ⟨some 7, some 100, 60⟩, false⟩) ∧
    (getOrCompute (some ⟨some 7, some 100, 60⟩) 161 60 8 =
      ⟨8, ⟨some 8, some 161, 60⟩, true⟩) ∧
    (getOrCompute (some (invalidate ⟨some 7, some 100, 60⟩)) 130 60 8 =
      ⟨8, ⟨some 8, some 130, 60⟩, true⟩) := by
  obtain ⟨h₁, h₂, -, -⟩ :=
    cache_get_or_compute Nat 7 8 60 100 130 (by norm_num)
  obtain ⟨-, -, h₃, -⟩ :=
    cache_get_or_compute Nat 7 8 60 100 161 (by norm_num)
  obtain ⟨-, -, -, h₄⟩ :=
    cache_get_or_compute Nat 7 8 60 100 130 (by norm_num)
  exact ⟨h₁, h₂ (by norm_num), h₃ (by norm_num), h₄⟩

/-! ## Retention manager (`cleanup_old_data`) -/

/-- One row of the `system_health` table as the retention sweep sees it
(`.select("id")`, ordered by `created_at`): the database-assigned strictly
increasing integer identity and the row timestamp.  A per-target store is the
list of that target's rows in insertion order. -/
structure HealthRow where
  id : Nat
  created_at : Nat
deriving DecidableEq, Repr

/-- Admissibility of a row order for the store's
`.order("created_at", desc=True)` query (`src/main.py:389`): the database
returns the target's rows in *some* order that is non-increasing by
`created_at` (newest first).  It guarantees no particular order among rows
with equal `created_at`, so every such permutation is an admissible answer. -/
def IsCreatedDescOrder (store o : List HealthRow) : Prop :=
  store.Perm o ∧ o.Chain' (fun a b => b.created_at ≤ a.created_at)

/-- The per-target body of `cleanup_old_data` (`src/main.py:375-404`), given
the row order `o` the database returned for the descending query: count the
target's rows; if more than 1000, the cutoff is the id of the row at offset
999 of `o` (`.limit(1).range(999, 999)`), and every row with a strictly
smaller id is deleted (`.lt("id", cutoff_id)`). -/
def cleanup_with_order (store o : List HealthRow) : List HealthRow :=
  if 1000 < store.length then
    match o[999]? with
    | some cutoff => store.filter fun r => decide (cutoff.id ≤ r.id)
    | none => store
  else store

/-- Executable check that a row list is non-increasing by `created_at`
(`List.Chain'` has no kernel-reducible decision procedure). -/
def sortedDescByCreated : List HealthRow → Bool
  | a :: b :: t => (decide (b.created_at ≤ a.created_at)) && sortedDescByCreated (b :: t)
  | _ => true

/-- Executable check that a row list has strictly increasing identities. -/
def strictlyAscendingIds : List HealthRow → Bool
  | a :: b :: t => (decide (a.id < b.id)) && strictlyAscendingIds (b :: t)
  | _ => true

lemma chain'_of_sortedDescByCreated :
    ∀ {l : List HealthRow}, sortedDescByCreated l = true →
      l.Chain' (fun a b => b.created_at ≤ a.created_at)
  | [], _ => trivial
  | [a], _ => List.chain'_singleton a
  | a :: b :: t, h => by
    simp only [sortedDescByCreated, Bool.and_eq_true, decide_eq_true_eq] at h
    exact List.Chain'.cons h.1 (chain'_of_sortedDescByCreated h.2)

lemma chain'_of_strictlyAscendingIds :
    ∀ {l : List HealthRow}, strictlyAscendingIds l = true →
      l.Chain' (fun a b => a.id < b.id)
  | [], _ => trivial
  | [a], _ => List.chain'_singleton a
  | a :: b :: t, h => by
    simp only [strictlyAscendingIds, Bool.and_eq_true, decide_eq_true_eq] at h
    exact List.Chain'.cons h.1 (chain'_of_strictlyAscendingIds h.2)

instance : IsTrans HealthRow (fun a b => a.id < b.id) :=
  ⟨fun _ _ _ => Nat.lt_trans⟩

instance : IsTrans HealthRow (fun a b => a.created_at < b.created_at) :=
  ⟨fun _ _ _ => Nat.lt_trans⟩

instance : IsTrans HealthRow (fun a b => b.created_at ≤ a.created_at) :=
  ⟨fun _ _ _ h h' => Nat.le_trans h' h⟩

/-- Two newest-first sorted orders of the same rows coincide when no two rows
share a timestamp: on a collision-free store the descending query has exactly
one admissible answer. -/
lemma sortedDesc_perm_eq :
    ∀ {l₁ l₂ : List HealthRow}, l₁.Perm l₂ →
      l₁.Pairwise (fun a b => b.created_at ≤ a.created_at) →
      l₂.Pairwise (fun a b => b.created_at ≤ a.created_at) →
      l₁.Pairwise (fun a b => a.created_at ≠ b.created_at) →
      l₁ = l₂
  | [], _, hp, _, _, _ => (hp.symm.eq_nil).symm
  | a :: t₁, l₂, hp, h₁, h₂, hne => by
    cases l₂ with
    | nil => exact absurd hp.eq_nil (List.cons_ne_nil a t₁)
    | cons b t₂ =>
      rcases List.pairwise_cons.mp h₁ with ⟨hb₁, ht₁⟩
      rcases List.pairwise_cons.mp h₂ with ⟨hb₂, ht₂⟩
      rcases List.pairwise_cons.mp hne with ⟨hnea, hnet⟩
      have hab : a = b := by
        have ha2 : a ∈ b :: t₂ := hp.subset (List.mem_cons_self a t₁)
        rcases List.mem_cons.mp ha2 with h | hat₂
        · exact h
        · have hb1 : b ∈ a :: t₁ := hp.symm.subset (List.mem_cons_self b t₂)
          rcases List.mem_cons.mp hb1 with h | hbt₁
          · exact h.symm
          · have hle1 : a.created_at ≤ b.created_at := hb₂ a hat₂
            have hle2 : b.created_at ≤ a.created_at := hb₁ b hbt₁
            exact absurd (Nat.le_antisymm hle1 hle2) (hnea b hbt₁)
      subst hab
      have ht : t₁.Perm t₂ := hp.cons_inv
      rw [sortedDesc_perm_eq ht ht₁ ht₂ hnet]

/-- Rows with identities 1 to 500, each timestamped with its identity. -/
def collisionLow : List HealthRow := (List.range' 1 500).map fun n => ⟨n, n⟩

/-- The 501st-oldest row. -/
def rowA : HealthRow := ⟨501, 501⟩

/-- The 502nd-oldest row, created in the same clock instant as `rowA` — a
timestamp collision exactly at the retention boundary. -/
def rowB : HealthRow := ⟨502, 501⟩

/-- Rows with identities 503 to 1500, each timestamped with its identity. -/
def collisionHigh : List HealthRow := (List.range' 503 998).map fun n => ⟨n, n⟩

/-- A well-formed 1500-row per-target store (identities strictly increasing)
whose rows 501 and 502 share a `created_at`. -/
def collisionStore : List HealthRow :=
  collisionLow ++ rowA :: rowB :: collisionHigh

/-- An admissible answer to the descending query on `collisionStore` that
places `rowA` before `rowB` among the tie: rows 1500 down to 503, then the
two tied rows, then 500 down to 1 — non-increasing by `created_at`, so the
database may return it. -/
def collisionBadOrder : List HealthRow :=
  collisionHigh.reverse ++ rowA :: rowB :: collisionLow.reverse

set_option maxRecDepth 16000 in
/-- C5, counterexample.  The claim predicts that one sweep of a 1500-row
store always leaves exactly the newest 1000 rows, the boundary determined by
the strictly increasing record identity.  The code instead picks the cutoff
row by `created_at` order at offset 999 (`src/main.py:386-392`) and the
database guarantees no order among equal timestamps: on `collisionStore`
(identities strictly increasing, one timestamp collision at the boundary)
the admissible order `collisionBadOrder` puts the higher identity at offset
999, so the sweep deletes 501 rows and leaves 999 — not the newest-by-identity
1000 (`collisionStore.drop 500`). -/
theorem retention_tie_order_cex :
    IsCreatedDescOrder collisionStore collisionBadOrder ∧
    collisionStore.length = 1500 ∧
    collisionStore.Chain' (fun a b => a.id < b.id) ∧
    (cleanup_with_order collisionStore collisionBadOrder).length = 999 ∧
    cleanup_with_order collisionStore collisionBadOrder ≠
      collisionStore.drop 500 := by
  have hsrev : collisionStore.reverse =
      collisionHigh.reverse ++ rowB :: rowA :: collisionLow.reverse := by
    simp [collisionStore, List.reverse_append, List.append_assoc]
  have hperm : collisionStore.Perm collisionBadOrder := by
    refine (List.reverse_perm collisionStore).symm.trans ?_
    rw [hsrev]
    show (collisionHigh.reverse ++ rowB :: rowA :: collisionLow.reverse).Perm
      (collisionHigh.reverse ++ rowA :: rowB :: collisionLow.reverse)
    exact List.Perm.append_left _ (List.Perm.swap rowA rowB collisionLow.reverse)
  refine ⟨⟨hperm, chain'_of_sortedDescByCreated (by decide)⟩, by decide,
    chain'_of_strictlyAscendingIds (by decide), by decide, by decide⟩

/-- C5 (amended): on a per-target store of 1500 rows whose identities and
timestamps both increase strictly in insertion order (collision-free — what
sequential per-target probe inserts produce), the descending query has a
unique admissible answer, and one sweep leaves exactly the newest 1000 rows
(it drops the 500 oldest) whichever admissible order the database returns;
every retained row's identity exceeds every deleted row's identity, and an
immediately repeated sweep is a no-op for every admissible order of the
remaining rows.  (When timestamps collide at the boundary the cutoff depends
on the database's unspecified tie order and the sweep can retain fewer than
1000 rows — see the counterexample.) -/
theorem retention_enforce (store o : List HealthRow)
    (hid : store.Chain' (fun a b => a.id < b.id))
    (hcr : store.Chain' (fun a b => a.created_at < b.created_at))
    (hlen : store.length = 1500)
    (ho : IsCreatedDescOrder store o) :
    cleanup_with_order store o = store.drop 500 ∧
    (cleanup_with_order store o).length = 1000 ∧
    (∀ r ∈ store.drop 500, ∀ d ∈ store.take 500, d.id < r.id) ∧
    (∀ o₂, IsCreatedDescOrder (cleanup_with_order store o) o₂ →
      cleanup_with_order (cleanup_with_order store o) o₂ =
        cleanup_with_order store o) := by
  have hidP : store.Pairwise (fun a b => a.id < b.id) :=
    List.chain'_iff_pairwise.mp hid
  have hcrP : store.Pairwise (fun a b => a.created_at < b.created_at) :=
    List.chain'_iff_pairwise.mp hcr
  have h500 : (500 : Nat) < store.length := by omega
  have h999 : (999 : Nat) < store.length := by omega
  -- with distinct timestamps the returned order can only be the reversed store
  have hRo : o.Pairwise (fun a b => b.created_at ≤ a.created_at) :=
    List.chain'_iff_pairwise.mp ho.2
  have hrevsorted :
      store.reverse.Pairwise (fun a b => b.created_at ≤ a.created_at) := by
    rw [List.pairwise_reverse]
    exact hcrP.imp fun h => Nat.le_of_lt h
  have hrevne :
      store.reverse.Pairwise (fun a b => a.created_at ≠ b.created_at) := by
    rw [List.pairwise_reverse]
    exact hcrP.imp fun h => (Nat.ne_of_lt h).symm
  have ho_eq : store.reverse = o :=
    sortedDesc_perm_eq ((List.reverse_perm store).trans ho.1) hrevsorted hRo hrevne
  -- the cutoff row fetched at offset 999 of the returned order is store[500]
  obtain ⟨c, hc500⟩ : ∃ c, store[500]? = some c :=
    ⟨_, List.getElem?_eq_some_iff.mpr ⟨h500, rfl⟩⟩
  have hcut : o[999]? = some c := by
    rw [← ho_eq, List.getElem?_reverse h999, hlen]
    norm_num
    exact hc500
  have hgetid : ∀ (i j : Nat) (a b : HealthRow), i < j →
      store[i]? = some a → store[j]? = some b → a.id < b.id := by
    intro i j a b hij ha hb
    rw [List.getElem?_eq_some_iff] at ha hb
    obtain ⟨hi, ha⟩ := ha
    obtain ⟨hj, hb⟩ := hb
    subst ha
    subst hb
    exact List.pairwise_iff_getElem.mp hidP i j hi hj hij
  -- the delete keeps exactly the suffix from index 500 on
  have hfilter :
      (store.filter fun r => decide (c.id ≤ r.id)) = store.drop 500 := by
    have htake :
        ((store.take 500).filter fun r => decide (c.id ≤ r.id)) = [] := by
      rw [List.filter_eq_nil_iff]
      intro a ha
      obtain ⟨i, hi, rfl⟩ := List.mem_iff_getElem.mp ha
      have hi' : i < 500 := by
        have := hi
        rw [List.length_take] at this
        omega
      have hsi : store[i]? = some ((store.take 500)[i]) := by
        rw [List.getElem?_eq_some_iff]
        refine ⟨by omega, ?_⟩
        rw [List.getElem_take]
      have hlt : ((store.take 500)[i]).id < c.id :=
        hgetid i 500 _ c hi' hsi hc500
      simp only [decide_eq_true_eq]
      omega
    have hdrop :
        ((store.drop 500).filter fun r => decide (c.id ≤ r.id)) =
          store.drop 500 := by
      rw [List.filter_eq_self]
      intro a ha
      obtain ⟨j, hj, rfl⟩ := List.mem_iff_getElem.mp ha
      have hj' : 500 + j < store.length := by
        have := hj
        rw [List.length_drop] at this
        omega
      have hsj : store[500 + j]? = some ((store.drop 500)[j]) := by
        rw [List.getElem?_eq_some_iff]
        refine ⟨hj', ?_⟩
        rw [List.getElem_drop]
      rcases Nat.eq_zero_or_pos j with hj0 | hjpos
      · subst hj0
        have hsj0 : store[500]? = some ((store.drop 500)[0]) := by
          simp only [Nat.add_zero] at hsj
          exact hsj
        have hceq : c = (store.drop 500)[0] :=
          Option.some_inj.mp (hc500.symm.trans hsj0)
        simp only [decide_eq_true_eq]
        exact le_of_eq (congrArg HealthRow.id hceq)
      · have hlt : c.id < ((store.drop 500)[j]).id :=
          hgetid 500 (500 + j) c _ (by omega) hc500 hsj
        simp only [decide_eq_true_eq]
        omega
    calc (store.filter fun r => decide (c.id ≤ r.id))
        = ((store.take 500 ++ store.drop 500).filter fun r =>
            decide (c.id ≤ r.id)) := by
          rw [List.take_append_drop]
      _ = store.drop 500 := by
          rw [List.filter_append, htake, hdrop, List.nil_append]
  have hclean : cleanup_with_order store o = store.drop 500 := by
    rw [cleanup_with_order, if_pos (by omega), hcut]
    exact hfilter
  have hlen' : (store.drop 500).length = 1000 := by
    rw [List.length_drop, hlen]
  refine ⟨hclean, by rw [hclean, hlen'], ?_, ?_⟩
  · have hsplit : (store.take 500 ++ store.drop 500).Pairwise
        (fun a b => a.id < b.id) := by
      rw [List.take_append_drop]
      exact hidP
    have h := (List.pairwise_append.mp hsplit).2.2
    exact fun r hr d hd => h d hd r hr
  · intro o₂ _
    rw [hclean, cleanup_with_order, if_neg (by rw [hlen']; omega)]

/-- A concrete 1500-row per-target store with strictly increasing identities
and timestamps. -/
def retentionWitnessStore : List HealthRow :=
  (List.range 1500).map fun i => ⟨i + 1, 10 * (i + 1)⟩

set_option maxRecDepth 8000 in
lemma retentionWitnessStore_id_chain :
    retentionWitnessStore.Chain' (fun a b => a.id < b.id) := by
  refine List.Pairwise.chain' ?_
  exact ((List.pairwise_lt_range 1500).map _ (fun a b h => by simpa using h))

set_option maxRecDepth 8000 in
lemma retentionWitnessStore_created_chain :
    retentionWitnessStore.Chain' (fun a b => a.created_at < b.created_at) := by
  refine List.Pairwise.chain' ?_
  exact ((List.pairwise_lt_range 1500).map _ (fun a b h => by simpa using h))

set_option maxRecDepth 16000 in
/-- Witness for `retention_enforce` at `retentionWitnessStore` with the
(unique) admissible order, its reverse, for both sweeps. -/
theorem retention_enforce_witness :
    cleanup_with_order retentionWitnessStore retentionWitnessStore.reverse =
      retentionWitnessStore.drop 500 ∧
    (cleanup_with_order retentionWitnessStore
        retentionWitnessStore.reverse).length = 1000 ∧
    cleanup_with_order
        (cleanup_with_order retentionWitnessStore retentionWitnessStore.reverse)
        (retentionWitnessStore.drop 500).reverse =
      cleanup_with_order retentionWitnessStore retentionWitnessStore.reverse := by
  obtain ⟨h1, h2, -, h4⟩ := retention_enforce retentionWitnessStore
    retentionWitnessStore.reverse
    retentionWitnessStore_id_chain retentionWitnessStore_created_chain
    (by simp [retentionWitnessStore])
    ⟨(List.reverse_perm retentionWitnessStore).symm,
      chain'_of_sortedDescByCreated (by decide)⟩
  refine ⟨h1, h2, h4 (retentionWitnessStore.drop 500).reverse
    ⟨?_, chain'_of_sortedDescByCreated (by decide)⟩⟩
  rw [h1]
  exact (List.reverse_perm (retentionWitnessStore.drop 500)).symm

/-! ## Stats aggregator (`generate_recommendations` summary loop and
`get_performance_metrics`)

Both paths read back stored `system_health` records, which carry the same
fields as the dicts built by `check_system_health`; a per-system window is a
`List ProbeResult` ordered newest first (the queries order by `created_at`
descending). -/

/-- Accumulator dict of the statistics loop in `generate_recommendations`
(`src/main.py:438-441`): `{'total': 0, 'healthy': 0, 'unhealthy': 0,
'errors': [], 'response_times': []}`. -/
structure GenStats where
  total : Nat
  healthy : Nat
  unhealthy : Nat
  errors : List String
  response_times : List ℚ
deriving DecidableEq, Repr

/-- One iteration of the statistics loop in `generate_recommendations`
(`src/main.py:435-452`): bump `total`; bump `healthy` or `unhealthy` by
status; for a non-healthy record append a truthy `error_message` (Python
truthiness: `None` and `""` are falsy); append a truthy `response_time_ms`
(Python truthiness: `None`, `0` and `0.0` are falsy). -/
def genStep (s : GenStats) (r : ProbeResult) : GenStats :=
  let s₁ := { s with total := s.total + 1 }
  let s₂ :=
    if r.status = .healthy then { s₁ with healthy := s₁.healthy + 1 }
    else
      let s' := { s₁ with unhealthy := s₁.unhealthy + 1 }
      match r.error_message with
      | some e => if e ≠ "" then { s' with errors := s'.errors ++ [e] } else s'
      | none => s'
  match r.response_time_ms with
  | some q =>
    if q ≠ 0 then { s₂ with response_times := s₂.response_times ++ [q] } else s₂
  | none => s₂

/-- The statistics accumulated for one system over its window (the records
of `health_data.data` with that `system_name`, newest first). -/
def systemStats (w : List ProbeResult) : GenStats :=
  w.foldl genStep ⟨0, 0, 0, [], []⟩

/-- `uptime = (stats['healthy'] / stats['total'] * 100) if stats['total'] > 0
else 0` (`src/main.py:456`). -/
def genUptime (s : GenStats) : ℚ :=
  if s.total > 0 then (s.healthy : ℚ) / s.total * 100 else 0

/-- `avg_response = sum(...) / len(...) if stats['response_times'] else 0`
(`src/main.py:457`): a numeric `0`, not an absent value, when no latency
sample exists. -/
def genAvgResponse (s : GenStats) : ℚ :=
  if s.response_times.isEmpty then 0
  else s.response_times.sum / s.response_times.length

/-- The error summary rendered at `src/main.py:464`:
`set(stats['errors'][:3])` — the distinct values among the first three
accumulated error messages, as a set (Python set iteration order is
unspecified, so only membership is modelled). -/
def recentErrorSet (s : GenStats) : Finset String :=
  (s.errors.take 3).toFinset

/-- Number of records of a window counted as healthy
(`sum(1 for r in data if r['status'] == 'healthy')`,
`src/main.py:444` and `src/main.py:715`). -/
def countHealthy (w : List ProbeResult) : Nat :=
  w.countP fun r => decide (r.status = .healthy)

/-- The error message the `generate_recommendations` loop extracts from one
record: only non-healthy records contribute, and only a truthy
(non-`None`, non-empty) `error_message`. -/
def errEntry (r : ProbeResult) : Option String :=
  if r.status = .healthy then none
  else match r.error_message with
    | some e => if e ≠ "" then some e else none
    | none => none

/-- The error messages of a window in window (newest-first) order. -/
def errorsOf (w : List ProbeResult) : List String :=
  w.filterMap errEntry

/-- The latency sample one record contributes: its `response_time_ms` if
truthy (`if record.get('response_time_ms')`, `src/main.py:451` and
`src/main.py:714`) — `None` and `0` contribute nothing. -/
def rtEntry (r : ProbeResult) : Option ℚ :=
  match r.response_time_ms with
  | some q => if q ≠ 0 then some q else none
  | none => none

/-- `[r["response_time_ms"] for r in response.data if
r.get("response_time_ms")]` (`src/main.py:714`). -/
def truthyResponseTimes (w : List ProbeResult) : List ℚ :=
  w.filterMap rtEntry

/-- The per-system entry built by `get_performance_metrics`
(`src/main.py:717-725`); display rounding omitted. -/
structure PerfMetrics where
  total_checks : Nat
  healthy_checks : Nat
  uptime_24h : ℚ
  avg_response_time : Option ℚ
  min_response_time : Option ℚ
  max_response_time : Option ℚ
deriving DecidableEq, Repr

/-- The body of `get_performance_metrics` for one system's 24-hour window
(`src/main.py:713-725`): guarded by `if response.data:` — an empty window
produces no metrics entry at all; with data, uptime is
`healthy / total * 100` and avg/min/max are computed over the truthy
latency samples, `None` when there are none. -/
def get_performance_metrics (w : List ProbeResult) : Option PerfMetrics :=
  if w.isEmpty then none
  else
    some
      { total_checks := w.length
        healthy_checks := countHealthy w
        uptime_24h := (countHealthy w : ℚ) / w.length * 100
        avg_response_time :=
          if (truthyResponseTimes w).isEmpty then none
          else some ((truthyResponseTimes w).sum / (truthyResponseTimes w).length)
        min_response_time := (truthyResponseTimes w).min?
        max_response_time := (truthyResponseTimes w).max? }

/-- The stats record described by the specification's words (§4.6
`summarize`): `uptime_pct = healthy_count / sample_count * 100` (0 when the
sample count is 0), average/min/max over the subset of results that have a
**defined** `latency_ms` (`none` when that subset is empty), and the up to 3
distinct non-null error messages, most recent first.  Stated from the spec
for comparison with the source-derived definitions. -/
structure SpecStats where
  sample_count : Nat
  healthy_count : Nat
  uptime_pct : ℚ
  avg_latency : Option ℚ
  min_latency : Option ℚ
  max_latency : Option ℚ
  recent_errors : List String
deriving DecidableEq, Repr

/-- The subset of a window with a defined (non-null) `latency_ms`, as the
spec words it. -/
def definedLatencies (w : List ProbeResult) : List ℚ :=
  w.filterMap (·.response_time_ms)

/-- `summarize` as the specification words it (§4.6); the comparison target
for the source-derived statistics paths. -/
def specSummarize (w : List ProbeResult) : SpecStats :=
  { sample_count := w.length
    healthy_count := countHealthy w
    uptime_pct :=
      if w.length = 0 then 0 else (countHealthy w : ℚ) / w.length * 100
    avg_latency :=
      if (definedLatencies w).isEmpty then none
      else some ((definedLatencies w).sum / (definedLatencies w).length)
    min_latency := (definedLatencies w).min?
    max_latency := (definedLatencies w).max?
    recent_errors := ((w.filterMap (·.error_message)).dedup).take 3 }

lemma genStep_total (s : GenStats) (r : ProbeResult) :
    (genStep s r).total = s.total + 1 := by
  rcases r with ⟨n, st, rt, em⟩
  rcases rt with _ | q <;> rcases em with _ | e <;>
    simp only [genStep] <;> split_ifs <;> rfl

lemma genStep_healthy (s : GenStats) (r : ProbeResult) :
    (genStep s r).healthy =
      if r.status = .healthy then s.healthy + 1 else s.healthy := by
  rcases r with ⟨n, st, rt, em⟩
  rcases rt with _ | q <;> rcases em with _ | e <;>
    simp only [genStep] <;> split_ifs <;> rfl

lemma genStep_errors (s : GenStats) (r : ProbeResult) :
    (genStep s r).errors = s.errors ++ (errEntry r).toList := by
  rcases r with ⟨n, st, rt, em⟩
  rcases rt with _ | q <;> rcases em with _ | e <;>
    simp only [genStep, errEntry] <;> split_ifs <;> simp_all

lemma genStep_response_times (s : GenStats) (r : ProbeResult) :
    (genStep s r).response_times = s.response_times ++ (rtEntry r).toList := by
  rcases r with ⟨n, st, rt, em⟩
  rcases rt with _ | q <;> rcases em with _ | e <;>
    simp only [genStep, rtEntry] <;> split_ifs <;> simp_all

lemma foldl_genStep_total (w : List ProbeResult) :
    ∀ s : GenStats, (w.foldl genStep s).total = s.total + w.length := by
  induction w with
  | nil => intro s; simp
  | cons r w ih =>
    intro s
    rw [List.foldl_cons, ih, genStep_total, List.length_cons]
    omega

lemma foldl_genStep_healthy (w : List ProbeResult) :
    ∀ s : GenStats,
      (w.foldl genStep s).healthy = s.healthy + countHealthy w := by
  induction w with
  | nil => intro s; simp [countHealthy]
  | cons r w ih =>
    intro s
    rw [List.foldl_cons, ih, genStep_healthy]
    by_cases h : r.status = .healthy <;>
      (simp [countHealthy, List.countP_cons, h]; try omega)

lemma foldl_genStep_errors (w : List ProbeResult) :
    ∀ s : GenStats,
      (w.foldl genStep s).errors = s.errors ++ errorsOf w := by
  induction w with
  | nil => intro s; simp [errorsOf]
  | cons r w ih =>
    intro s
    rw [List.foldl_cons, ih, genStep_errors]
    rcases h : errEntry r with _ | e <;>
      simp [errorsOf, List.filterMap_cons, h]

lemma foldl_genStep_response_times (w : List ProbeResult) :
    ∀ s : GenStats,
      (w.foldl genStep s).response_times =
        s.response_times ++ truthyResponseTimes w := by
  induction w with
  | nil => intro s; simp [truthyResponseTimes]
  | cons r w ih =>
    intro s
    rw [List.foldl_cons, ih, genStep_response_times]
    rcases h : rtEntry r with _ | q <;>
      simp [truthyResponseTimes, List.filterMap_cons, h]

/-- The fields of the accumulated per-system statistics, in closed form. -/
lemma systemStats_eq (w : List ProbeResult) :
    (systemStats w).total = w.length ∧
    (systemStats w).healthy = countHealthy w ∧
    (systemStats w).errors = errorsOf w ∧
    (systemStats w).response_times = truthyResponseTimes w := by
  refine ⟨?_, ?_, ?_, ?_⟩
  · simpa using foldl_genStep_total w ⟨0, 0, 0, [], []⟩
  · simpa using foldl_genStep_healthy w ⟨0, 0, 0, [], []⟩
  · simpa using foldl_genStep_errors w ⟨0, 0, 0, [], []⟩
  · simpa using foldl_genStep_response_times w ⟨0, 0, 0, [], []⟩

/-- A window holding one genuine 0 ms healthy exchange. -/
def statsZeroLatencyWindow : List ProbeResult := [⟨"s", .healthy, some 0, none⟩]

/-- A window holding one transport-error result with no latency. -/
def statsNoLatencyWindow : List ProbeResult :=
  [⟨"s", .error, none, some "connection refused"⟩]

/-- The specification's own worked example window:
`[healthy(100ms), healthy(200ms), unhealthy(err="x")]`, newest first. -/
def statsExampleWindow : List ProbeResult :=
  [⟨"s", .healthy, some 100, none⟩, ⟨"s", .healthy, some 200, none⟩,
   ⟨"s", .unhealthy, none, some "x"⟩]

/-- The metrics entry `get_performance_metrics` computes on
`statsExampleWindow`. -/
def statsExampleMetrics : PerfMetrics :=
  ⟨3, 2, 200 / 3, some 150, some 100, some 200⟩

/-- C6, counterexample.  The claim predicts avg/min/max over exactly the
results with a *defined* `latency_ms`, `none` on an empty subset and uptime 0
on an empty window.  On a window with a defined 0 ms latency the metrics path
yields `avg = none` where the spec's summarize yields `some 0` (the truthiness
filter at `src/main.py:714` drops the sample); on a window with no latency the
recommendation-summary path yields the number 0 where the spec yields `none`
(`src/main.py:457`); and on an empty window the metrics path emits no stats
entry at all rather than one with uptime 0 (`src/main.py:713`). -/
theorem stats_defined_latency_cex :
    (get_performance_metrics statsZeroLatencyWindow).isSome = true ∧
    Option.bind (get_performance_metrics statsZeroLatencyWindow)
        (fun m => m.avg_response_time) ≠
      (specSummarize statsZeroLatencyWindow).avg_latency ∧
    some (genAvgResponse (systemStats statsNoLatencyWindow)) ≠
      (specSummarize statsNoLatencyWindow).avg_latency ∧
    get_performance_metrics ([] : List ProbeResult) = none ∧
    (specSummarize ([] : List ProbeResult)).uptime_pct = 0 := by
  decide

/-- C6 (amended): both statistics paths compute
`uptime = healthy_count / sample_count * 100` under their division guards
(the metrics path produces no entry at all for an empty window; the
recommendation path yields 0), and average/min/max latency over exactly the
*truthy* latency samples (present and non-zero): the metrics path yields
`none` on an empty sample set, the recommendation path yields the number 0. -/
theorem stats_aggregator_paths (w : List ProbeResult) :
    (get_performance_metrics w = none ↔ w = []) ∧
    (∀ m, get_performance_metrics w = some m →
      m.total_checks = w.length ∧
      m.healthy_checks = countHealthy w ∧
      m.uptime_24h = (countHealthy w : ℚ) / w.length * 100 ∧
      (m.avg_response_time = none ↔ truthyResponseTimes w = []) ∧
      (∀ q, m.avg_response_time = some q →
        q * (truthyResponseTimes w).length = (truthyResponseTimes w).sum) ∧
      (∀ q, m.min_response_time = some q →
        q ∈ truthyResponseTimes w ∧ ∀ x ∈ truthyResponseTimes w, q ≤ x) ∧
      (∀ q, m.max_response_time = some q →
        q ∈ truthyResponseTimes w ∧ ∀ x ∈ truthyResponseTimes w, x ≤ q)) ∧
    genUptime (systemStats w) =
      (if w.length = 0 then 0 else (countHealthy w : ℚ) / w.length * 100) ∧
    (truthyResponseTimes w = [] → genAvgResponse (systemStats w) = 0) ∧
    (truthyResponseTimes w ≠ [] →
      genAvgResponse (systemStats w) * (truthyResponseTimes w).length =
        (truthyResponseTimes w).sum) := by
  have hanti : Std.Antisymm (α := ℚ) (· ≤ ·) := ⟨fun h h' => le_antisymm h h'⟩
  refine ⟨?_, ?_, ?_, ?_, ?_⟩
  · cases w <;> simp [get_performance_metrics]
  · intro m hm
    cases w with
    | nil => simp [get_performance_metrics] at hm
    | cons a t =>
      rw [get_performance_metrics] at hm
      simp only [List.isEmpty_cons, if_neg Bool.false_ne_true, Option.some_inj] at hm
      subst hm
      refine ⟨rfl, rfl, rfl, ?_, ?_, ?_, ?_⟩
      · simp only []
        split_ifs with h
        · simpa [List.isEmpty_iff] using h
        · simp [List.isEmpty_iff] at h
          simp [h]
      · intro q hq
        simp only [] at hq
        by_cases h : (truthyResponseTimes (a :: t)).isEmpty = true
        · rw [if_pos h] at hq
          exact Option.noConfusion hq
        · rw [if_neg h] at hq
          have hne : truthyResponseTimes (a :: t) ≠ [] := by
            simpa [List.isEmpty_iff] using h
          have hlen : ((truthyResponseTimes (a :: t)).length : ℚ) ≠ 0 :=
            Nat.cast_ne_zero.mpr (Nat.pos_iff_ne_zero.mp (List.length_pos.mpr hne))
          have hsq := Option.some_inj.mp hq
          subst hsq
          exact div_mul_cancel₀ _ hlen
      · intro q hq
        exact (List.min?_eq_some_iff (fun a => le_refl a)
          (fun a b => min_choice a b) (fun a b c => le_min_iff)).mp hq
      · intro q hq
        have h := (List.max?_eq_some_iff (fun a => le_refl a)
          (fun a b => max_choice a b) (fun a b c => max_le_iff)).mp hq
        exact ⟨h.1, h.2⟩
  · rw [genUptime, (systemStats_eq w).1, (systemStats_eq w).2.1]
    rcases Nat.eq_zero_or_pos w.length with h | h
    · simp [h]
    · rw [if_pos h, if_neg (by omega)]
  · intro h
    rw [genAvgResponse, (systemStats_eq w).2.2.2, h]
    rfl
  · intro h
    rw [genAvgResponse, (systemStats_eq w).2.2.2,
      if_neg (by simpa [List.isEmpty_iff] using h)]
    have hlen : ((truthyResponseTimes w).length : ℚ) ≠ 0 :=
      Nat.cast_ne_zero.mpr (Nat.pos_iff_ne_zero.mp (List.length_pos.mpr h))
    exact div_mul_cancel₀ _ hlen

/-- Witness for `stats_aggregator_paths` at the spec's worked example
window: uptime `200/3 ≈ 66.7`, average latency 150 over samples
`[100, 200]`. -/
theorem stats_aggregator_paths_witness :
    get_performance_metrics statsExampleWindow = some statsExampleMetrics ∧
    statsExampleMetrics.uptime_24h =
      (countHealthy statsExampleWindow : ℚ) / statsExampleWindow.length * 100 ∧
    (150 : ℚ) * (truthyResponseTimes statsExampleWindow).length =
      (truthyResponseTimes statsExampleWindow).sum ∧
    (100 : ℚ) ∈ truthyResponseTimes statsExampleWindow ∧
    genUptime (systemStats statsExampleWindow) = 200 / 3 ∧
    genAvgResponse (systemStats statsExampleWindow) *
        (truthyResponseTimes statsExampleWindow).length =
      (truthyResponseTimes statsExampleWindow).sum := by
  have hrts : truthyResponseTimes statsExampleWindow = [100, 200] := by decide
  have hch : countHealthy statsExampleWindow = 2 := by decide
  have hsome : get_performance_metrics statsExampleWindow =
      some statsExampleMetrics := by
    rw [get_performance_metrics, if_neg (by decide), hrts, hch]
    simp only [Option.some_inj, PerfMetrics.mk.injEq]
    norm_num [statsExampleWindow, statsExampleMetrics]
  obtain ⟨-, hm, hu, -, havg⟩ := stats_aggregator_paths statsExampleWindow
  obtain ⟨-, -, hup, -, havgq, hmin, -⟩ := hm statsExampleMetrics hsome
  refine ⟨hsome, hup, havgq 150 rfl, (hmin 100 rfl).1, ?_, havg (by decide)⟩
  rw [hu, hch]
  norm_num [statsExampleWindow]

/-- A window whose three most recent error messages contain a duplicate
while a third distinct error exists further back. -/
def errorDupWindow : List ProbeResult :=
  [⟨"s", .unhealthy, none, some "a"⟩, ⟨"s", .unhealthy, none, some "a"⟩,
   ⟨"s", .unhealthy, none, some "b"⟩, ⟨"s", .unhealthy, none, some "c"⟩]

/-- C7, counterexample.  The claim predicts the set of up to 3 *distinct*
non-null errors, most recent first.  The source computes
`set(stats['errors'][:3])` (`src/main.py:464`) — truncate-then-deduplicate in
unspecified set order — so on a window with errors `a, a, b, c` (newest
first) it reports only `{a, b}` where the claim predicts the three distinct
errors `a, b, c`. -/
theorem recent_errors_cex :
    recentErrorSet (systemStats errorDupWindow) ≠
      (specSummarize errorDupWindow).recent_errors.toFinset ∧
    (recentErrorSet (systemStats errorDupWindow)).card = 2 ∧
    (specSummarize errorDupWindow).recent_errors = ["a", "b", "c"] := by
  decide

/-- C7 (amended): the error summary is the set of distinct values among the
3 most recent truthy error messages of non-healthy results in the window
(hence at most 3 errors, possibly fewer distinct errors than the window
holds), rendered in unspecified order. -/
theorem recent_errors_take_then_dedup (w : List ProbeResult) :
    recentErrorSet (systemStats w) = ((errorsOf w).take 3).toFinset ∧
    (recentErrorSet (systemStats w)).card ≤ 3 ∧
    (∀ e, e ∈ recentErrorSet (systemStats w) ↔ e ∈ (errorsOf w).take 3) ∧
    (∀ e ∈ recentErrorSet (systemStats w), e ∈ errorsOf w) := by
  have herr := (systemStats_eq w).2.2.1
  have hset : recentErrorSet (systemStats w) = ((errorsOf w).take 3).toFinset := by
    rw [recentErrorSet, herr]
  refine ⟨hset, ?_, ?_, ?_⟩
  · rw [hset]
    calc ((errorsOf w).take 3).toFinset.card
        ≤ ((errorsOf w).take 3).length := List.toFinset_card_le _
      _ ≤ 3 := List.length_take_le 3 _
  · intro e
    rw [hset, List.mem_toFinset]
  · intro e he
    rw [hset, List.mem_toFinset] at he
    exact List.mem_of_mem_take he

/-- Witness for `recent_errors_take_then_dedup` at the spec's worked example
window (single error `"x"`). -/
theorem recent_errors_witness :
    recentErrorSet (systemStats statsExampleWindow) =
      ((errorsOf statsExampleWindow).take 3).toFinset ∧
    (recentErrorSet (systemStats statsExampleWindow)).card ≤ 3 ∧
    ("x" ∈ recentErrorSet (systemStats statsExampleWindow) ↔
      "x" ∈ (errorsOf statsExampleWindow).take 3) := by
  obtain ⟨h1, h2, h3, -⟩ := recent_errors_take_then_dedup statsExampleWindow
  exact ⟨h1, h2, h3 "x"⟩

lemma zero_not_mem_truthyResponseTimes (w : List ProbeResult) :
    (0 : ℚ) ∉ truthyResponseTimes w := by
  intro h
  rw [truthyResponseTimes, List.mem_filterMap] at h
  obtain ⟨r, -, hr⟩ := h
  rcases hrt : r.response_time_ms with _ | q
  · simp only [rtEntry, hrt] at hr
    exact Option.noConfusion hr
  · simp only [rtEntry, hrt] at hr
    split_ifs at hr with hq
    exact hq (Option.some_inj.mp hr)

lemma truthyResponseTimes_filter_zero (w : List ProbeResult) :
    truthyResponseTimes
        (w.filter fun r => decide (r.response_time_ms ≠ some 0)) =
      truthyResponseTimes w := by
  induction w with
  | nil => rfl
  | cons r w ih =>
    show List.filterMap rtEntry (List.filter _ (r :: w)) =
      List.filterMap rtEntry (r :: w)
    rw [List.filter_cons]
    by_cases hp : r.response_time_ms = some 0
    · rw [if_neg (by simp [hp])]
      have hre : rtEntry r = none := by simp [rtEntry, hp]
      rw [List.filterMap_cons, hre]
      exact ih
    · rw [if_pos (by simp [hp]), List.filterMap_cons, List.filterMap_cons]
      rcases h : rtEntry r with _ | q
      · exact ih
      · exact congrArg (List.cons q) ih

/-- C10: in both statistics paths the latency filter is a truthiness test, so
a stored `response_time_ms` equal to 0 is treated as having no latency: the
value 0 never occurs among the latency samples of either path, and removing
all 0 ms records from a window leaves the latency sample list (hence every
avg/min/max computed from it) unchanged. -/
theorem zero_latency_excluded (w : List ProbeResult) :
    (0 : ℚ) ∉ truthyResponseTimes w ∧
    (0 : ℚ) ∉ (systemStats w).response_times ∧
    truthyResponseTimes
        (w.filter fun r => decide (r.response_time_ms ≠ some 0)) =
      truthyResponseTimes w ∧
    (systemStats w).response_times = truthyResponseTimes w := by
  have hmem := zero_not_mem_truthyResponseTimes w
  have hrts := (systemStats_eq w).2.2.2
  exact ⟨hmem, by rw [hrts]; exact hmem,
    truthyResponseTimes_filter_zero w, hrts⟩

/-- A window mixing a genuine 0 ms sample with a 100 ms sample. -/
def zeroLatencyMixWindow : List ProbeResult :=
  [⟨"s", .healthy, some 0, none⟩, ⟨"s", .healthy, some 100, none⟩]

/-- Witness for `zero_latency_excluded`: the 0 ms sample is dropped, so the
average over `[0 ms, 100 ms]` is reported as 100, not 50. -/
theorem zero_latency_excluded_witness :
    (0 : ℚ) ∉ truthyResponseTimes zeroLatencyMixWindow ∧
    truthyResponseTimes zeroLatencyMixWindow = [100] ∧
    Option.bind (get_performance_metrics zeroLatencyMixWindow)
        (fun m => m.avg_response_time) = some 100 := by
  refine ⟨(zero_latency_excluded zeroLatencyMixWindow).1, by decide, ?_⟩
  have h1 : truthyResponseTimes zeroLatencyMixWindow = [100] := by decide
  rw [get_performance_metrics, if_neg (by decide), Option.some_bind, h1]
  norm_num

/-! ## Fan-out runner (`run_health_checks`) -/

/-- The state `run_health_checks` mutates: the `system_health` table, the
`workflow_events` table (holding the alert payloads), and the
`health_overview` cache slot's `data` field (`CACHE["health_overview"]["data"]`,
an opaque payload of type `V`).  Store writes are modelled as succeeding
(`src/main.py:366` only logs and skips a failing write). -/
structure HubState (V : Type) where
  store : List ProbeResult
  events : List ProbeResult
  overview_cache : Option V
deriving DecidableEq, Repr

/-- The per-result body of the collection loop in `run_health_checks`
(`src/main.py:338-364`): insert the result into `system_health`, clear the
`health_overview` cache slot, and for a non-healthy result insert a
`system_health_alert` workflow event carrying the result as payload.
`check_system_health` never raises, so the `isinstance(health_data,
Exception)` arm of the source loop is dead and not modelled. -/
def storeResult {V : Type} (st : HubState V) (h : ProbeResult) : HubState V :=
  let st₁ := { st with store := st.store ++ [h] }
  let st₂ := { st₁ with overview_cache := none }
  if h.status ≠ .healthy then { st₂ with events := st₂.events ++ [h] } else st₂

/-- `run_health_checks(systems)` (`src/main.py:330-367`) after the concurrent
gather: fold the collected per-target results into the store/cache state. -/
def run_health_checks {V : Type} (results : List ProbeResult) (st : HubState V) :
    HubState V :=
  results.foldl storeResult st

lemma storeResult_cache {V : Type} (st : HubState V) (h : ProbeResult) :
    (storeResult st h).overview_cache = none := by
  rw [storeResult]
  split_ifs <;> rfl

lemma storeResult_store {V : Type} (st : HubState V) (h : ProbeResult) :
    (storeResult st h).store = st.store ++ [h] := by
  rw [storeResult]
  split_ifs <;> rfl

lemma run_health_checks_store {V : Type} (results : List ProbeResult)
    (st : HubState V) :
    (run_health_checks results st).store = st.store ++ results := by
  induction results generalizing st with
  | nil => simp [run_health_checks]
  | cons r rest ih =>
    rw [run_health_checks, List.foldl_cons]
    have h := ih (storeResult st r)
    rw [run_health_checks] at h
    rw [h, storeResult_store, List.append_assoc, List.singleton_append]

/-- C8, counterexample.  The claim quantifies over *any* set of targets, but
the cache clear sits inside the per-result loop (`src/main.py:352`): a run
over an empty target set collects no results, executes no loop iteration, and
leaves the cached overview untouched. -/
theorem fanout_empty_set_cex :
    (run_health_checks ([] : List ProbeResult)
        (⟨[], [], some 42⟩ : HubState Nat)).overview_cache ≠ none := by
  decide

/-- C8 (amended): every invocation of the Fan-out Runner over a *nonempty*
set of targets clears the `health_overview` cache slot (sets its stored value
to `none`) — in particular also when every collected result is healthy, since
the clear is unconditional within the loop — and appends every collected
result to the store; a run over an empty set leaves the cache untouched. -/
lemma run_health_checks_cache {V : Type} :
    ∀ (results : List ProbeResult) (st : HubState V), results ≠ [] →
      (run_health_checks results st).overview_cache = none
  | [], _, hne => absurd rfl hne
  | r :: rest, st, _ => by
    rw [run_health_checks, List.foldl_cons]
    cases rest with
    | nil => exact storeResult_cache st r
    | cons b l =>
      exact run_health_checks_cache (b :: l) (storeResult st r)
        (List.cons_ne_nil b l)

theorem fanout_invalidates_overview {V : Type} (results : List ProbeResult)
    (st : HubState V) (hne : results ≠ []) :
    (run_health_checks results st).overview_cache = none ∧
    (run_health_checks results st).store = st.store ++ results :=
  ⟨run_health_checks_cache results st hne, run_health_checks_store results st⟩

/-- A batch in which every result is healthy. -/
def healthyBatch : List ProbeResult :=
  [⟨"story_grid_pro", .healthy, some 10, none⟩,
   ⟨"iaj_social_main", .healthy, some 20, none⟩]

/-- Witness for `fanout_invalidates_overview`: an all-healthy batch still
clears the cached overview. -/
theorem fanout_invalidates_overview_witness :
    (run_health_checks healthyBatch
        (⟨[], [], some 7⟩ : HubState Nat)).overview_cache = none ∧
    (run_health_checks healthyBatch
        (⟨[], [], some 7⟩ : HubState Nat)).store =
      ([] : List ProbeResult) ++ healthyBatch :=
  fanout_invalidates_overview healthyBatch ⟨[], [], some 7⟩ (by decide)

/-! ## Recommendation-generator reply parsing (`generate_recommendations`,
parse stage)

The generator's free-text reply is a Python `str`, modelled as its sequence
of code points (`List Char`); the slice `[:1000]` is `List.take 1000`.
Structured extraction (`re.search` for a bracketed block followed by
`json.loads`, `src/main.py:486-490`) either produces a list of raw dicts or
fails (no match, or a `json.JSONDecodeError`); both failure modes reach the
same fallback, so extraction is modelled by its outcome. -/

/-- One raw dict of the parsed JSON list; `rec.get(...)` yields `None` for a
missing key, so every field is optional (`src/main.py:493-509`). -/
structure RawRec where
  recommendation_type : Option String
  priority : Option String
  title : Option String
  description : Option String
  system_name : Option String
  action : Option String
deriving DecidableEq, Repr

/-- One formatted recommendation record as built by
`generate_recommendations` (`src/main.py:494-509` and `518-529`);
`action_url` (always `None`), the constant metadata and the timestamps are
not modelled. -/
structure Recommendation where
  recommendation_type : String
  priority : String
  title : String
  description : List Char
  system_name : String
  actionable : Bool
  status : String
deriving DecidableEq, Repr

/-- `formatted_recs.append({...})` for one parsed dict
(`src/main.py:494-509`), with the source's `.get(key, default)` defaults. -/
def formatRec (r : RawRec) : Recommendation :=
  { recommendation_type := r.recommendation_type.getD "general"
    priority := r.priority.getD "medium"
    title := r.title.getD "System Recommendation"
    description := (r.description.getD "").data
    system_name := r.system_name.getD "all"
    actionable := true
    status := "active" }

/-- The literal fallback record (`src/main.py:518-529`): the reply text is
stored as the description, truncated to its first 1000 characters
(`recommendations_text[:1000]`). -/
def fallbackRecommendation (text : List Char) : Recommendation :=
  { recommendation_type := "analysis"
    priority := "medium"
    title := "System Analysis Complete"
    description := text.take 1000
    system_name := "all"
    actionable := true
    status := "active" }

/-- The parse stage of `generate_recommendations` (`src/main.py:485-529`):
successful structured extraction formats each parsed dict; any extraction
failure falls back to the single wrapper record. -/
def parseGeneratorReply (extracted : Option (List RawRec)) (text : List Char) :
    List Recommendation :=
  match extracted with
  | some recs => recs.map formatRec
  | none => [fallbackRecommendation text]

/-- A generator reply of 1001 characters. -/
def longReplyText : List Char := List.replicate 1001 'a'

set_option maxRecDepth 8000 in
/-- C9, counterexample.  The claim predicts the free-text output is preserved
verbatim (unaltered and untruncated) in the fallback record, but the source
stores `recommendations_text[:1000]` (`src/main.py:522`): a 1001-character
reply is truncated to its first 1000 characters. -/
theorem fallback_truncates_cex :
    (parseGeneratorReply none longReplyText).map
        (fun rec => rec.description) ≠ [longReplyText] ∧
    (fallbackRecommendation longReplyText).description.length = 1000 ∧
    longReplyText.length = 1001 := by
  refine ⟨?_, by decide, by decide⟩
  intro h
  have hd : (fallbackRecommendation longReplyText).description = longReplyText := by
    simpa [parseGeneratorReply] using h
  have h1000 : (fallbackRecommendation longReplyText).description.length = 1000 := by
    decide
  rw [hd] at h1000
  have : longReplyText.length = 1001 := by decide
  omega

/-- C9 (amended): whenever structured extraction fails, the cycle's output is
not discarded — exactly one fallback record is produced and its description
is the generator's free text truncated to the first 1000 characters; replies
of at most 1000 characters are preserved verbatim. -/
theorem generator_fallback (text : List Char) :
    (parseGeneratorReply none text).length = 1 ∧
    (parseGeneratorReply none text).map (fun rec => rec.description) =
      [text.take 1000] ∧
    (text.length ≤ 1000 →
      (parseGeneratorReply none text).map (fun rec => rec.description) =
        [text]) := by
  refine ⟨rfl, rfl, ?_⟩
  intro h
  simp [parseGeneratorReply, fallbackRecommendation, List.take_of_length_le h]

/-- A short generator reply (17 characters). -/
def shortReplyText : List Char := "no JSON available".data

/-- Witness for `generator_fallback` at a reply short enough to be kept
verbatim. -/
theorem generator_fallback_witness :
    (parseGeneratorReply none shortReplyText).length = 1 ∧
    (parseGeneratorReply none shortReplyText).map (fun rec => rec.description) =
      [shortReplyText] := by
  obtain ⟨h1, -, h3⟩ := generator_fallback shortReplyText
  exact ⟨h1, h3 (by decide)⟩

end IAJHub
